import Mathlib

/- Verification of the gtklock playerctl module (src/source.c, module version 4.0).
The module mirrors MPRIS player state into a per-window widget tree on a lock
screen.  Below is a shallow embedding of its data model (struct playerctl, the
process-wide player session, per-window module data) and of each operation the
source defines, followed by theorems about their behaviour.  Widget handles and
GTK calls are modelled by their observable state (labels, image content, reveal
and sensitivity flags); asynchronous completions are modelled as explicit
functions applied to the state they would run against. -/

namespace Gtklock

/-- PlayerctlPlaybackStatus values read from the tracked player. -/
inductive PlaybackStatus
| playing
| paused
| stopped
deriving DecidableEq, Repr

/-- The metadata properties of the tracked player that the module reads
(playerctl_player_get_title / get_album / get_artist and the
mpris:artUrl metadata property).  A C string that is NULL is none. -/
structure Metadata where
  title : Option String
  album : Option String
  artist : Option String
  artUrl : Option String
deriving DecidableEq, Repr

/-- A tracked player handle together with the bus properties the module reads
from it (playback-status, capability flags, metadata). -/
structure Player where
  name : String
  meta : Metadata
  status : PlaybackStatus
  can_go_next : Bool
  can_go_previous : Bool
  can_pause : Bool
deriving DecidableEq, Repr

/-- Model of playerctl_player_new_from_name (src/source.c:319, 389): a player
handle for the named player.  Its dynamic properties are read from the bus
later; for session-tracking purposes only the identity matters, so they are
modelled as defaults here. -/
def playerFromName (n : String) : Player :=
  { name := n
    meta := { title := none, album := none, artist := none, artUrl := none }
    status := PlaybackStatus.stopped
    can_go_next := false
    can_go_previous := false
    can_pause := false }

/-- The module configuration (module_entries, src/source.c:31-40): art-size in
pixels, position string, show-hidden flag.  Read once at activation. -/
structure Config where
  art_size : Nat
  position : String
  show_hidden : Bool
deriving DecidableEq, Repr

/-- Content of the album-art image widget: either a named icon
(gtk_image_set_from_icon_name) or a decoded pixbuf (gtk_image_set_from_pixbuf). -/
inductive ArtImage
| icon (name : String)
| pixbuf (data : String)
deriving DecidableEq, Repr

/-- The placeholder icon installed at widget build and at the start of every
setup_album_art call (src/source.c:87, 273). -/
def placeholderIcon : ArtImage := ArtImage.icon "audio-x-generic-symbolic"

/-- One label inside the label box; name is the GTK widget name
("title-label" / "album-label" / "artist-label"), text its content. -/
structure Label where
  name : String
  text : String
deriving DecidableEq, Repr

/-- struct playerctl (src/source.c:11-19).  Widget handles are modelled by
their observable state: the revealer by its reveal-child flag and whether
gtk_widget_destroy was called on it, the album-art image by its content
(none when it was never created, i.e. art_size was 0 at build), the label box
by its list of labels, the three buttons by their sensitivity, the play/pause
button additionally by its image icon, plus the destroyed flag and the
alignment set at build time. -/
structure playerctl where
  destroyed : Bool
  revealChild : Bool
  revealerDestroyed : Bool
  halign : String
  valign : String
  album_art : Option ArtImage
  labels : List Label
  play_pause_icon : String
  previous_sensitive : Bool
  play_pause_sensitive : Bool
  next_sensitive : Bool
deriving DecidableEq, Repr

/-- A window is an opaque handle; the module only uses it as a key into its
module-data slots. -/
abbrev WindowId := Nat

/-- The part of struct GtkLock the module reads: the focused window and the
hidden (idle-lock) flag. -/
structure GtkLock where
  focused_window : Option WindowId
  hidden : Bool
deriving DecidableEq, Repr

/-- The per-window module-data slots (ctx->module_data[self_id]): a mapping
from window to the window's playerctl widget state, none when the slot is
NULL. -/
abbrev ModuleData := WindowId → Option playerctl

/-- Writing one window's module-data slot. -/
def mapUpdate (d : ModuleData) (i : WindowId) (v : Option playerctl) : ModuleData :=
  fun j => if j = i then v else d j

/-- The C test `!s || s[0] == '\0'` used for metadata strings and the art URI:
true exactly when the string is non-NULL and non-empty. -/
def strNonEmpty : Option String → Bool
  | none => false
  | some s => !s.isEmpty

/-- Model of GLib g_uri_peek_scheme: the scheme is the part of the URI before
the first colon, canonicalized to lower case; NULL (none) when there is no
colon or the part before it is empty or does not start with a letter. -/
def uriScheme (uri : String) : Option String :=
  let cs := uri.toList
  if cs.contains ':' then
    let s := cs.takeWhile fun c => c != ':'
    match s with
    | [] => none
    | c :: _ => if c.isAlpha then some (String.mk (s.map Char.toLower)) else none
  else none

/-- The art URI the module reads from the tracked player
(playerctl_player_print_metadata_prop(current_player, "mpris:artUrl"),
src/source.c:90): NULL when there is no player or no art URL. -/
def artUrlOf (cur : Option Player) : Option String :=
  cur.bind fun p => p.meta.artUrl

/-- An asynchronous album-art fetch started by setup_album_art: either
g_file_read_async on a file URI or soup_session_send_async on an http(s) URI. -/
inductive Fetch
| file (uri : String)
| http (uri : String)
deriving DecidableEq, Repr

/-- Translated from setup_album_art (src/source.c:83-109).  Precondition
(asserted in the source): the widget is not destroyed.  The art image is first
reset to the placeholder icon unconditionally; a NULL or empty URI then stops
there; a file URI starts an async file read, an http/https URI an async GET;
any other scheme logs one warning and starts nothing.  Returns the widget
state, the fetches started and the warnings logged. -/
def setup_album_art (cur : Option Player) (w : playerctl) :
    playerctl × List Fetch × List String :=
  let w1 := { w with album_art := some placeholderIcon }
  let uri := artUrlOf cur
  if strNonEmpty uri then
    let u := uri.getD ""
    let scheme := uriScheme u
    if scheme = some "file" then (w1, [Fetch.file u], [])
    else if scheme = some "http" ∨ scheme = some "https" then (w1, [Fetch.http u], [])
    else (w1, [], ["Failed loading album art (g_uri_peek_scheme): Unknown scheme"])
  else (w1, [], [])

/-- Translated from set_art_from_stream (src/source.c:47-59), the completion of
an album-art fetch: a destroyed widget is left untouched and nothing is logged
(the destroyed check precedes the decode); a decode failure is logged leaving
the current image; otherwise the decoded pixbuf is installed.  decodeResult
models gdk_pixbuf_new_from_stream_at_scale. -/
def set_art_from_stream (decodeResult : Except String String) (w : playerctl) :
    playerctl × List String :=
  if w.destroyed then (w, [])
  else
    match decodeResult with
    | Except.error e =>
        (w, ["Failed loading album art (gdk_pixbuf_new_from_stream_at_scale): " ++ e])
    | Except.ok pix => ({ w with album_art := some (ArtImage.pixbuf pix) }, [])

/-- Translated from play_pause (src/source.c:111-118): the command's failure is
returned through the &error out-parameter and logged.  res models the outcome
of playerctl_player_play_pause; the returned list is the warnings logged. -/
def play_pause (res : Except String Unit) : List String :=
  match res with
  | Except.error e => ["Failed play_pause: " ++ e]
  | Except.ok _ => []

/-- Translated from next (src/source.c:120-127): playerctl_player_next is
called with a NULL error out-parameter, so the local error stays NULL and the
warning branch below it is dead -- a failed command is not logged. -/
def next (_res : Except String Unit) : List String :=
  let error : Option String := none
  match error with
  | some e => ["Failed go_next: " ++ e]
  | none => []

/-- Translated from previous (src/source.c:129-136): like next, the call is
made with a NULL error out-parameter, so the warning branch is dead and a
failed command is not logged. -/
def previous (_res : Except String Unit) : List String :=
  let error : Option String := none
  match error with
  | some e => ["Failed go_previous: " ++ e]
  | none => []

/-- Translated from setup_playback (src/source.c:144-151): sets the play/pause
button image from the playback status. -/
def setup_playback (w : playerctl) (status : PlaybackStatus) : playerctl :=
  { w with play_pause_icon :=
      if status = PlaybackStatus.playing then "media-playback-pause-symbolic"
      else "media-playback-start-symbolic" }

/-- Return value of a GLib source callback: G_SOURCE_REMOVE removes the source,
G_SOURCE_CONTINUE (here: again) keeps it installed. -/
inductive SourceResult
| remove
| again
deriving DecidableEq, Repr

/-- Translated from setup_button_sensitive_handler (src/source.c:153-167):
with no current player, or a destroyed widget, does nothing; otherwise reads
the capability flags and sets the three buttons' sensitivity.  Every path
returns G_SOURCE_REMOVE. -/
def setup_button_sensitive_handler (cur : Option Player) (w : playerctl) :
    playerctl × SourceResult :=
  match cur with
  | none => (w, SourceResult.remove)
  | some p =>
    if w.destroyed then (w, SourceResult.remove)
    else
      ({ w with previous_sensitive := p.can_go_previous
                play_pause_sensitive := p.can_pause
                next_sensitive := p.can_go_next }, SourceResult.remove)

/-- Translated from setup_button_sensitive (src/source.c:169-174):
g_timeout_add_seconds(1, handler, widget), then an immediate call of the
handler.  Returns the widget state after the immediate call and the intervals
(in seconds) of the timeout sources installed. -/
def setup_button_sensitive (cur : Option Player) (w : playerctl) :
    playerctl × List Nat :=
  ((setup_button_sensitive_handler cur w).1, [1])

/-- GLib timeout semantics for the one-second source installed by
setup_button_sensitive: the source fires once per interval and stays installed
exactly while its callback returns G_SOURCE_CONTINUE.  fuel is the observation
window in elapsed one-second ticks; returns the widget state and how many
times the callback fired. -/
def g_timeout_run (fuel : Nat) (cur : Option Player) (w : playerctl) :
    playerctl × Nat :=
  match fuel with
  | 0 => (w, 0)
  | Nat.succ n =>
    let r := setup_button_sensitive_handler cur w
    match r.2 with
    | SourceResult.again => ((g_timeout_run n cur r.1).1, (g_timeout_run n cur r.1).2 + 1)
    | SourceResult.remove => (r.1, 1)

/-- The markup installed into the title label
(g_markup_printf_escaped("<b>%s</b>", title), src/source.c:199; the escaping
of markup characters inside the title is display-level and not modelled). -/
def markupBold (s : String) : String := "<b>" ++ s ++ "</b>"

/-- The labels rebuilt by setup_metadata (src/source.c:190-222): the label box
is cleared, then one label is added per non-NULL, non-empty field, in the
order title, album, artist. -/
def metadataLabels (p : Player) : List Label :=
  (if strNonEmpty p.meta.title then
      [{ name := "title-label", text := markupBold (p.meta.title.getD "") }]
    else [])
  ++ (if strNonEmpty p.meta.album then
      [{ name := "album-label", text := p.meta.album.getD "" }]
    else [])
  ++ (if strNonEmpty p.meta.artist then
      [{ name := "artist-label", text := p.meta.artist.getD "" }]
    else [])

/-- Number of labels with the given widget name in a label box. -/
def countLabels (n : String) (ls : List Label) : Nat :=
  (ls.filter fun l => l.name == n).length

/-- The three metadata fields that produce labels. -/
inductive MetaField
| title
| album
| artist
deriving DecidableEq, Repr

/-- The metadata value of a field. -/
def fieldVal : MetaField → Metadata → Option String
  | MetaField.title, m => m.title
  | MetaField.album, m => m.album
  | MetaField.artist, m => m.artist

/-- The GTK widget name of a field's label. -/
def fieldLabelName : MetaField → String
  | MetaField.title => "title-label"
  | MetaField.album => "album-label"
  | MetaField.artist => "artist-label"

/-- The side effects of a refresh: album-art fetches started, warnings logged,
timeout sources installed (interval seconds). -/
structure RefreshEffects where
  fetches : List Fetch
  warnings : List String
  timers : List Nat
deriving DecidableEq, Repr

/-- Translated from setup_metadata (src/source.c:176-228), the refresh
operation.  Precondition (asserted in the source): the widget is not
destroyed.  With no current player only the revealer is hidden; otherwise the
play/pause icon, the album art, the labels and the button sensitivities are
resynchronized and the revealer is revealed. -/
def setup_metadata (cur : Option Player) (w : playerctl) :
    playerctl × RefreshEffects :=
  match cur with
  | none => ({ w with revealChild := false }, ⟨[], [], []⟩)
  | some p =>
    let w1 := setup_playback w p.status
    let a := setup_album_art (some p) w1
    let w2 := { a.1 with labels := metadataLabels p }
    let s := setup_button_sensitive (some p) w2
    ({ s.1 with revealChild := true }, ⟨a.2.1, a.2.2, s.2⟩)

/-- The revealer alignment computed at build from the position option
(src/source.c:246-260), together with the warning for an unknown position.
Positions above-clock / under-clock keep the defaults (they are inserted into
the info box instead of overlaid). -/
def revealerAlign (position : String) : String × String × List String :=
  let halign :=
    if position = "top-left" ∨ position = "bottom-left" then "start"
    else if position = "top-right" ∨ position = "bottom-right" then "end"
    else "center"
  if position = "top-left" ∨ position = "top-right" ∨ position = "top-center" then
    (halign, "start", [])
  else if position = "bottom-left" ∨ position = "bottom-right" ∨ position = "bottom-center" then
    (halign, "end", [])
  else if position ≠ "above-clock" ∧ position ≠ "under-clock" then
    ("center", "start", ["playerctl: Unknown position"])
  else (halign, "fill", [])

/-- The widget state built by setup_playerctl before its initial refresh
(src/source.c:235-303): not destroyed, revealer hidden, album-art image
created (with the placeholder icon) only when art_size is non-zero, empty
label box, play/pause button with no image yet, all buttons at the GTK default
sensitivity.  Returns the state and the build warnings. -/
def newPlayerctl (cfg : Config) : playerctl × List String :=
  let al := revealerAlign cfg.position
  ({ destroyed := false
     revealChild := false
     revealerDestroyed := false
     halign := al.1
     valign := al.2.1
     album_art := if cfg.art_size ≠ 0 then some placeholderIcon else none
     labels := []
     play_pause_icon := ""
     previous_sensitive := true
     play_pause_sensitive := true
     next_sensitive := true }, al.2.2)

/-- Translated from setup_playerctl (src/source.c:230-309), the ensure
operation: returns the existing module data when present (no effects);
otherwise builds the widget subtree, runs setup_metadata on it, and stores it
in the window's module-data slot.  Returns the updated slots, the window's
widget state, and the effects. -/
def setup_playerctl (cfg : Config) (cur : Option Player) (data : ModuleData)
    (ctx : WindowId) : ModuleData × playerctl × RefreshEffects :=
  match data ctx with
  | some w => (data, w, ⟨[], [], []⟩)
  | none =>
    let b := newPlayerctl cfg
    let r := setup_metadata cur b.1
    (mapUpdate data ctx (some r.1), r.1,
      { r.2 with warnings := b.2 ++ r.2.warnings })

/-- Translated from name_appeared (src/source.c:316-322): the event is ignored
when a player is already tracked; otherwise a player is created from the name
and tracked. -/
def name_appeared (cur : Option Player) (n : String) : Option Player :=
  match cur with
  | some _ => cur
  | none => some (playerFromName n)

/-- Translated from the player-selection part of on_activation
(src/source.c:373-397): when manager construction fails (managerOk false) a
warning is logged and no player is tracked; otherwise the first enumerated
player name, if any, becomes the current player. -/
def on_activation (managerOk : Bool) (available_players : List String) :
    Option Player :=
  if managerOk then
    match available_players with
    | [] => none
    | n :: _ => some (playerFromName n)
  else none

/-- Result of the player_vanished handler: the cleared player reference, the
updated module-data slots, and -- because the source deliberately leaks the
struct instead of freeing it (FIXME at src/source.c:366-367) -- the value of
the leaked struct, which in-flight fetch callbacks still reference. -/
structure VanishResult where
  current_player : Option Player
  data : ModuleData
  leaked : Option playerctl

/-- Translated from player_vanished (src/source.c:357-371): clears the tracked
player unconditionally; then, only when there is a focused window and it has
module data, destroys that widget's revealer, sets its destroyed flag (in that
order), and clears that window's slot.  No other window is touched, and with
no focused window nothing is destroyed (FIXME at src/source.c:360). -/
def player_vanished (g : GtkLock) (_cur : Option Player) (data : ModuleData) :
    VanishResult :=
  match g.focused_window with
  | none => { current_player := none, data := data, leaked := none }
  | some fw =>
    match data fw with
    | none => { current_player := none, data := data, leaked := none }
    | some w =>
      let w1 := { w with revealerDestroyed := true }
      let w2 := { w1 with destroyed := true }
      { current_player := none, data := mapUpdate data fw none, leaked := some w2 }

/-- Translated from on_window_destroy (src/source.c:415-424): when the window
has module data, destroys the revealer, frees the struct (g_free -- the
destroyed flag is NOT set first), and clears the slot.  The second component
is the struct's value at free time. -/
def on_window_destroy (data : ModuleData) (ctx : WindowId) :
    ModuleData × Option playerctl :=
  match data ctx with
  | none => (data, none)
  | some w => (mapUpdate data ctx none, some { w with revealerDestroyed := true })

/-- Translated from on_focus_change (src/source.c:399-413): ensures and
refreshes the new window's widget, sets its reveal to !hidden || show_hidden;
when old is non-NULL and distinct from win, g_assert(old_widget) requires the
old window to still have module data -- none models that assertion firing --
and then only the old revealer is hidden. -/
def on_focus_change (cfg : Config) (cur : Option Player) (g : GtkLock)
    (data : ModuleData) (win : WindowId) (old : Option WindowId) :
    Option (ModuleData × RefreshEffects) :=
  let e :=
    match data win with
    | some w =>
      let r := setup_metadata cur w
      (mapUpdate data win (some r.1), r.1, r.2)
    | none => setup_playerctl cfg cur data win
  let w2 := { e.2.1 with revealChild := !g.hidden || cfg.show_hidden }
  let data2 := mapUpdate e.1 win (some w2)
  match old with
  | none => some (data2, e.2.2)
  | some o =>
    if o = win then some (data2, e.2.2)
    else
      match data2 o with
      | none => none
      | some ow => some (mapUpdate data2 o (some { ow with revealChild := false }), e.2.2)

/-- The primitive steps a destroy path performs on a widget state, in source
order. -/
inductive DestroyOp
| setDestroyedFlag
| destroyRevealer
| freeState
| clearMapping
deriving DecidableEq, Repr

/-- The statement sequence of player_vanished's destroy path
(src/source.c:364-369): gtk_widget_destroy(widget->revealer);
widget->destroyed = TRUE; *module_data = NULL. -/
def player_vanished_ops : List DestroyOp :=
  [DestroyOp.destroyRevealer, DestroyOp.setDestroyedFlag, DestroyOp.clearMapping]

/-- The statement sequence of on_window_destroy's destroy path
(src/source.c:419-422): gtk_widget_destroy(widget->revealer);
g_free(widget); *module_data = NULL. -/
def on_window_destroy_ops : List DestroyOp :=
  [DestroyOp.destroyRevealer, DestroyOp.freeState, DestroyOp.clearMapping]

/-- Whether a destroy path sets the destroyed flag before any teardown of
widget handles or of the state itself: the flag occurs, and no revealer
destruction or free precedes it. -/
def flagSetBeforeTeardown (ops : List DestroyOp) : Bool :=
  let before := ops.takeWhile fun op => op != DestroyOp.setDestroyedFlag
  ops.contains DestroyOp.setDestroyedFlag
    && !(before.contains DestroyOp.destroyRevealer)
    && !(before.contains DestroyOp.freeState)

/-- Fixture: a freshly built live widget (art created, nothing shown yet). -/
def w0 : playerctl :=
  { destroyed := false
    revealChild := false
    revealerDestroyed := false
    halign := "center"
    valign := "start"
    album_art := some placeholderIcon
    labels := []
    play_pause_icon := ""
    previous_sensitive := true
    play_pause_sensitive := true
    next_sensitive := true }

/-- Fixture: empty metadata. -/
def meta0 : Metadata := { title := none, album := none, artist := none, artUrl := none }

/-- Fixture: a playing player with no metadata. -/
def p0 : Player :=
  { name := "mpv", meta := meta0, status := PlaybackStatus.playing
    can_go_next := true, can_go_previous := false, can_pause := true }

/-- Fixture: a player with a title and a file art URL. -/
def pArt : Player :=
  { p0 with meta := { meta0 with title := some "Song", artUrl := some "file:///cover.png" } }

/-- Fixture: a player with an unsupported (ftp) art URL scheme. -/
def pFtp : Player :=
  { p0 with meta := { meta0 with artUrl := some "ftp://host/cover.png" } }

/-- Fixture: a player with no album field. -/
def pAlbumNone : Player := p0

/-- Fixture: a player with a non-empty album field. -/
def pAlbumX : Player :=
  { p0 with meta := { meta0 with album := some "X" } }

/-- Fixture: configuration with art disabled (art-size 0). -/
def cfg0 : Config := { art_size := 0, position := "top-center", show_hidden := false }

/-- Fixture: the default configuration (art-size 64). -/
def cfg64 : Config := { art_size := 64, position := "top-center", show_hidden := false }

/-- Fixture: module data holding the fixture widget at one window only. -/
def dataW0At (i : WindowId) : ModuleData := fun j => if j = i then some w0 else none

/-- Fixture: module data holding the fixture widget at windows 0 and 1. -/
def dataTwo : ModuleData := fun j => if j = 0 ∨ j = 1 then some w0 else none

/-- Fixture: empty module data. -/
def dataNone : ModuleData := fun _ => none

/-- Reading the slot just written. -/
theorem mapUpdate_same (d : ModuleData) (i : WindowId) (v : Option playerctl) :
    mapUpdate d i v i = v := by
  simp [mapUpdate]

/-- Writing one slot leaves the others unchanged. -/
theorem mapUpdate_ne (d : ModuleData) (i : WindowId) (v : Option playerctl)
    (j : WindowId) (h : j ≠ i) : mapUpdate d i v j = d j := by
  simp [mapUpdate, h]

/-- Every branch of setup_album_art returns the same widget state: the input
with the art image reset to the placeholder icon. -/
theorem setup_album_art_fst (cur : Option Player) (w : playerctl) :
    (setup_album_art cur w).1 = { w with album_art := some placeholderIcon } := by
  simp only [setup_album_art]
  split
  · split
    · rfl
    · split <;> rfl
  · rfl

/-- The button-sensitivity callback returns G_SOURCE_REMOVE on every path. -/
theorem setup_button_sensitive_handler_snd (cur : Option Player) (w : playerctl) :
    (setup_button_sensitive_handler cur w).2 = SourceResult.remove := by
  cases cur with
  | none => rfl
  | some p =>
    cases hd : w.destroyed <;> simp [setup_button_sensitive_handler, hd]

/-- The button-sensitivity callback never touches the label box. -/
theorem setup_button_sensitive_handler_labels (cur : Option Player) (w : playerctl) :
    ((setup_button_sensitive_handler cur w).1).labels = w.labels := by
  cases cur with
  | none => rfl
  | some p =>
    cases hd : w.destroyed <;> simp [setup_button_sensitive_handler, hd]

/-- A refresh with a tracked player rebuilds the label box to exactly the
labels of that player's metadata. -/
theorem setup_metadata_labels (p : Player) (w : playerctl) :
    ((setup_metadata (some p) w).1).labels = metadataLabels p := by
  unfold setup_metadata setup_button_sensitive
  simp [setup_button_sensitive_handler_labels]

/-- The label box rebuilt from metadata holds exactly one label for a field
when that field is non-NULL and non-empty, and none otherwise. -/
theorem countLabels_metadataLabels (f : MetaField) (p : Player) :
    countLabels (fieldLabelName f) (metadataLabels p)
      = if strNonEmpty (fieldVal f p.meta) then 1 else 0 := by
  cases f <;>
    cases ht : strNonEmpty p.meta.title <;>
    cases ha : strNonEmpty p.meta.album <;>
    cases hr : strNonEmpty p.meta.artist <;>
      simp [countLabels, metadataLabels, fieldLabelName, fieldVal, ht, ha, hr,
        List.filter]

/-- C1 counterexample: neither destroy path sets destroyed=true before tearing
down widget handles: player_vanished destroys the revealer first and sets the
flag after, and on_window_destroy never sets the flag at all. -/
theorem C1_flag_order_counterexample :
    flagSetBeforeTeardown player_vanished_ops = false
    ∧ flagSetBeforeTeardown on_window_destroy_ops = false := by
  decide

/-- C1 (amended): in the player-vanished destroy path the revealer is torn
down first and destroyed=true is set immediately after, within the same
synchronous handler, so a pending art-fetch completion delivered after the
handler observes the flag, mutates no widget handle and logs nothing; in the
window-destroy path the flag is never set -- the state is freed instead -- so
completions are not flag-guarded there. -/
theorem C1_destroy_flag_after_teardown (g : GtkLock) (cur : Option Player)
    (data : ModuleData) (fw : WindowId) (w : playerctl)
    (hf : g.focused_window = some fw) (hw : data fw = some w)
    (d : Except String String) :
    (∃ lw, (player_vanished g cur data).leaked = some lw
      ∧ lw.destroyed = true
      ∧ set_art_from_stream d lw = (lw, []))
    ∧ DestroyOp.setDestroyedFlag ∈ player_vanished_ops
    ∧ DestroyOp.setDestroyedFlag ∉ on_window_destroy_ops := by
  refine ⟨?_, by decide, by decide⟩
  refine ⟨{ w with revealerDestroyed := true, destroyed := true }, ?_, rfl, ?_⟩
  · simp only [player_vanished, hf, hw]
  · simp [set_art_from_stream]

/-- C1 witness: the amended theorem at a concrete state: after player_vanished
with focused window 0, the leaked widget carries destroyed=true and a
completed fetch leaves it untouched. -/
theorem C1_destroy_flag_witness :
    ∃ lw, (player_vanished { focused_window := some 0, hidden := false } none
        (dataW0At 0)).leaked = some lw
      ∧ lw.destroyed = true
      ∧ set_art_from_stream (Except.ok "pix") lw = (lw, []) :=
  (C1_destroy_flag_after_teardown { focused_window := some 0, hidden := false }
    none (dataW0At 0) 0 w0 rfl rfl (Except.ok "pix")).1

/-- C2: the player session tracker is a state machine over NoPlayer and
HasPlayer: activation with zero enumerated players leaves NoPlayer; the first
name-appeared event, or the first enumerated name at startup, moves it to
HasPlayer; a name-appeared event while already HasPlayer is ignored; and
player-vanished clears the reference unconditionally. -/
theorem C2_session_state_machine :
    (∀ managerOk : Bool, on_activation managerOk [] = none)
    ∧ (∀ n ns, on_activation true (n :: ns) = some (playerFromName n))
    ∧ (∀ n, name_appeared none n = some (playerFromName n))
    ∧ (∀ p n, name_appeared (some p) n = some p)
    ∧ (∀ g cur data, (player_vanished g cur data).current_player = none) := by
  refine ⟨?_, fun n ns => rfl, fun n => rfl, fun p n => rfl, ?_⟩
  · intro managerOk; cases managerOk <;> rfl
  · intro g cur data
    rcases g with ⟨fw, hid⟩
    rcases fw with _ | fw
    · rfl
    · unfold player_vanished
      rcases hd : data fw with _ | w <;> simp [hd]

/-- C3 counterexample: with windows 0 and 1 both holding live widget state and
window 0 focused, player_vanished leaves window 1's WidgetState in place and
not destroyed, refuting that every window's live WidgetState is destroyed when
the player vanishes. -/
theorem C3_vanish_nonfocused_counterexample :
    (player_vanished { focused_window := some 0, hidden := false } none
      dataTwo).data 1 = some w0
    ∧ w0.destroyed = false := by
  exact ⟨rfl, rfl⟩

/-- C3 (amended): when the tracked player vanishes, only the focused window's
WidgetState (when a focused window exists and has one) is destroyed and its
mapping removed; every other window's state -- and every state when no window
is focused -- is left untouched.  When a window is destroyed, its WidgetState
(if present) is destroyed and its mapping removed, other windows untouched. -/
theorem C3_destroy_paths (g : GtkLock) (cur : Option Player) (data : ModuleData)
    (fw ctx : WindowId) (w wc : playerctl) :
    (g.focused_window = some fw → data fw = some w →
      (player_vanished g cur data).data fw = none
      ∧ (player_vanished g cur data).leaked
          = some { w with revealerDestroyed := true, destroyed := true }
      ∧ ∀ j, j ≠ fw → (player_vanished g cur data).data j = data j)
    ∧ (g.focused_window = none → (player_vanished g cur data).data = data)
    ∧ (data ctx = some wc →
      (on_window_destroy data ctx).1 ctx = none
      ∧ (on_window_destroy data ctx).2 = some { wc with revealerDestroyed := true }
      ∧ ∀ j, j ≠ ctx → (on_window_destroy data ctx).1 j = data j) := by
  refine ⟨?_, ?_, ?_⟩
  · intro hf hw
    simp only [player_vanished, hf, hw]
    exact ⟨mapUpdate_same data fw none, trivial,
      fun j hj => mapUpdate_ne data fw none j hj⟩
  · intro hf
    simp only [player_vanished, hf]
  · intro hc
    simp only [on_window_destroy, hc]
    exact ⟨mapUpdate_same data ctx none, trivial,
      fun j hj => mapUpdate_ne data ctx none j hj⟩

/-- C3 witness: the amended theorem at a concrete state: vanishing with window
0 focused removes window 0's mapping but leaves window 1's, and destroying
window 1 removes its mapping but leaves window 0's. -/
theorem C3_destroy_paths_witness :
    ((player_vanished { focused_window := some 0, hidden := false } none
        dataTwo).data 0 = none
      ∧ (player_vanished { focused_window := some 0, hidden := false } none
        dataTwo).data 1 = dataTwo 1)
    ∧ ((on_window_destroy dataTwo 1).1 1 = none
      ∧ (on_window_destroy dataTwo 1).1 0 = dataTwo 0) := by
  have h := C3_destroy_paths { focused_window := some 0, hidden := false } none
    dataTwo 0 1 w0 w0
  exact ⟨⟨(h.1 rfl rfl).1, (h.1 rfl rfl).2.2 1 (by decide)⟩,
    ⟨(h.2.2 rfl).1, (h.2.2 rfl).2.2 0 (by decide)⟩⟩

/-- C4: for every (non-destroyed, as the source asserts) widget state and
every metadata field, a refresh with an empty or absent field value produces
no label for it, a refresh with a non-empty value produces exactly one, and
the round trip refresh(empty), refresh(nonempty), refresh(empty) ends with no
label for the field. -/
theorem C4_labels_roundtrip (f : MetaField) (w : playerctl) (p1 p2 p3 : Player)
    (_hw : w.destroyed = false)
    (h1 : strNonEmpty (fieldVal f p1.meta) = false)
    (h2 : strNonEmpty (fieldVal f p2.meta) = true)
    (h3 : strNonEmpty (fieldVal f p3.meta) = false) :
    (∀ q : Player,
      countLabels (fieldLabelName f) ((setup_metadata (some q) w).1.labels)
        = if strNonEmpty (fieldVal f q.meta) then 1 else 0)
    ∧ countLabels (fieldLabelName f) ((setup_metadata (some p1) w).1.labels) = 0
    ∧ countLabels (fieldLabelName f)
        ((setup_metadata (some p2) (setup_metadata (some p1) w).1).1.labels) = 1
    ∧ countLabels (fieldLabelName f)
        ((setup_metadata (some p3)
          (setup_metadata (some p2) (setup_metadata (some p1) w).1).1).1.labels)
        = 0 := by
  have key : ∀ (q : Player) (v : playerctl),
      countLabels (fieldLabelName f) ((setup_metadata (some q) v).1.labels)
        = if strNonEmpty (fieldVal f q.meta) then 1 else 0 := by
    intro q v
    rw [setup_metadata_labels, countLabels_metadataLabels]
  refine ⟨fun q => key q w, ?_, ?_, ?_⟩ <;> simp [key, h1, h2, h3]

/-- C4 witness: the round trip at a concrete widget and players: after
refresh(no album) then refresh(album "X"), exactly one album label exists. -/
theorem C4_labels_witness :
    countLabels "album-label"
      ((setup_metadata (some pAlbumX)
        (setup_metadata (some pAlbumNone) w0).1).1.labels) = 1 :=
  (C4_labels_roundtrip MetaField.album w0 pAlbumNone pAlbumX pAlbumNone
    rfl (by decide) (by decide) (by decide)).2.2.1

/-- C5: for every art URI input to setup_album_art: a NULL or empty URI starts
no fetch and logs nothing, leaving the placeholder icon in the art image; a
non-empty URI with scheme file starts an asynchronous file fetch and one with
scheme http or https an asynchronous HTTP fetch (no warning); a non-empty URI
with any other scheme starts no fetch, logs exactly one warning, and leaves
the placeholder icon. -/
theorem C5_art_uri_scheme_dispatch (cur : Option Player) (w : playerctl) :
    (strNonEmpty (artUrlOf cur) = false →
      setup_album_art cur w
        = ({ w with album_art := some placeholderIcon }, [], []))
    ∧ (∀ u, artUrlOf cur = some u → strNonEmpty (some u) = true →
        uriScheme u = some "file" →
      setup_album_art cur w
        = ({ w with album_art := some placeholderIcon }, [Fetch.file u], []))
    ∧ (∀ u, artUrlOf cur = some u → strNonEmpty (some u) = true →
        (uriScheme u = some "http" ∨ uriScheme u = some "https") →
      setup_album_art cur w
        = ({ w with album_art := some placeholderIcon }, [Fetch.http u], []))
    ∧ (∀ u, artUrlOf cur = some u → strNonEmpty (some u) = true →
        uriScheme u ≠ some "file" → uriScheme u ≠ some "http" →
        uriScheme u ≠ some "https" →
      setup_album_art cur w
        = ({ w with album_art := some placeholderIcon }, [],
            ["Failed loading album art (g_uri_peek_scheme): Unknown scheme"])) := by
  refine ⟨?_, ?_, ?_, ?_⟩
  · intro h
    simp [setup_album_art, h]
  · intro u hu hne hs
    simp [setup_album_art, hu, hne, hs]
  · intro u hu hne hs
    rcases hs with hs | hs <;> simp [setup_album_art, hu, hne, hs]
  · intro u hu hne h1 h2 h3
    simp [setup_album_art, hu, hne, h1, h2, h3]

/-- C5 witness: the dispatch at a concrete unsupported-scheme URI
(ftp://host/cover.png): no fetch, one warning, placeholder icon. -/
theorem C5_art_uri_witness :
    setup_album_art (some pFtp) w0
      = ({ w0 with album_art := some placeholderIcon }, [],
          ["Failed loading album art (g_uri_peek_scheme): Unknown scheme"]) :=
  (C5_art_uri_scheme_dispatch (some pFtp) w0).2.2.2 "ftp://host/cover.png"
    rfl (by decide) (by decide) (by decide) (by decide)

/-- C6 counterexample: the one-second source is not recurring: its callback
returns G_SOURCE_REMOVE, and over a five-second observation window it fires
once, not five times. -/
theorem C6_timer_not_recurring_counterexample :
    (setup_button_sensitive_handler (some p0) w0).2 = SourceResult.remove
    ∧ (g_timeout_run 5 (some p0) w0).2 = 1
    ∧ (g_timeout_run 5 (some p0) w0).2 ≠ 5 := by
  decide

/-- C6 (amended): button sensitivity is recomputed immediately after each
refresh, and re-evaluated once more one second later: each refresh installs a
single one-second timeout whose callback returns G_SOURCE_REMOVE, so over any
observation window of at least one tick it fires exactly once -- it is a
one-shot re-check per refresh, not a recurring cadence. -/
theorem C6_sensitivity_immediate_plus_one_shot (cur : Option Player)
    (w : playerctl) (n : Nat) (h : 1 ≤ n) :
    (setup_button_sensitive cur w).1 = (setup_button_sensitive_handler cur w).1
    ∧ (setup_button_sensitive cur w).2 = [1]
    ∧ (g_timeout_run n cur w).2 = 1
    ∧ (∀ p : Player, ∀ v : playerctl, (setup_metadata (some p) v).2.timers = [1]) := by
  refine ⟨rfl, rfl, ?_, fun p v => rfl⟩
  cases n with
  | zero => omega
  | succ m =>
    simp [g_timeout_run, setup_button_sensitive_handler_snd]

/-- C6 witness: the amended theorem at a concrete player, widget and
five-second window: the timer fires exactly once. -/
theorem C6_sensitivity_witness :
    (g_timeout_run 5 (some p0) w0).2 = 1 :=
  (C6_sensitivity_immediate_plus_one_shot (some p0) w0 5 (by decide)).2.2.1

/-- C7: on_focus_change ensures and refreshes the new window's widget state,
sets its reveal to !hidden || show_hidden, and when the old window is non-null
and distinct (and still has a widget, as the source asserts), hides only the
old window's revealer, leaving the old widget's content unchanged. -/
theorem C7_focus_change (cfg : Config) (p : Player) (g : GtkLock)
    (data : ModuleData) (win o : WindowId) (ow : playerctl)
    (hne : o ≠ win) (hold : data o = some ow) :
    ∃ data2 eff,
      on_focus_change cfg (some p) g data win (some o) = some (data2, eff)
      ∧ (∃ w2, data2 win = some w2
          ∧ w2.revealChild = (!g.hidden || cfg.show_hidden)
          ∧ w2.labels = metadataLabels p)
      ∧ data2 o = some { ow with revealChild := false } := by
  cases hwin : data win with
  | some w =>
    simp only [on_focus_change, hwin]
    rw [if_neg hne]
    simp only [mapUpdate, if_neg hne, hold]
    refine ⟨_, _, rfl, ?_, ?_⟩
    · refine ⟨{ (setup_metadata (some p) w).1 with
          revealChild := !g.hidden || cfg.show_hidden }, ?_, rfl, ?_⟩
      · simp [mapUpdate, Ne.symm hne]
      · simp [setup_metadata_labels]
    · simp [mapUpdate]
  | none =>
    simp only [on_focus_change, hwin, setup_playerctl]
    rw [if_neg hne]
    simp only [mapUpdate, if_neg hne, hold]
    refine ⟨_, _, rfl, ?_, ?_⟩
    · refine ⟨{ (setup_metadata (some p) (newPlayerctl cfg).1).1 with
          revealChild := !g.hidden || cfg.show_hidden }, ?_, rfl, ?_⟩
      · simp [mapUpdate, Ne.symm hne]
      · simp [setup_metadata_labels]
    · simp [mapUpdate]

/-- C7 witness: a concrete focus change from window 1 to window 0 with a
tracked player: window 0's widget is ensured, refreshed and revealed, window
1's widget keeps its content with only the reveal cleared. -/
theorem C7_focus_change_witness :
    ∃ data2 eff,
      on_focus_change cfg64 (some pArt) { focused_window := some 0, hidden := false }
        (dataW0At 1) 0 (some 1) = some (data2, eff)
      ∧ (∃ w2, data2 0 = some w2
          ∧ w2.revealChild = (!false || cfg64.show_hidden)
          ∧ w2.labels = metadataLabels pArt)
      ∧ data2 1 = some { w0 with revealChild := false } :=
  C7_focus_change cfg64 pArt { focused_window := some 0, hidden := false }
    (dataW0At 1) 0 1 w0 (by decide) rfl

/-- C8: a failed play_pause is logged through its error out-parameter, but
next and previous pass a NULL error out-parameter, so their warning branches
are dead and a failed next or previous command is not logged -- the claim that
every player-command failure is logged fails on the code. -/
theorem C8_command_failures_partially_logged :
    play_pause (Except.error "busy") = ["Failed play_pause: busy"]
    ∧ next (Except.error "no next track") = []
    ∧ previous (Except.error "cannot go back") = [] :=
  ⟨rfl, rfl, rfl⟩

/-- C9: with art-size 0, building a widget creates no art image, but a refresh
with a tracked player still performs album-art operations: setup_metadata
calls setup_album_art unconditionally, which writes the placeholder into the
never-created art image (an uninitialized pointer in the C code) and starts a
fetch for the art URL. -/
theorem C9_art_size_zero_refresh_still_touches_art :
    ((newPlayerctl cfg0).1).album_art = none
    ∧ ((setup_metadata (some pArt) (newPlayerctl cfg0).1).1).album_art
        = some placeholderIcon
    ∧ (setup_metadata (some pArt) (newPlayerctl cfg0).1).2.fetches
        = [Fetch.file "file:///cover.png"] := by
  decide

/-- C10: on_focus_change requires as a precondition that a distinct non-null
old window still has widget state: when the old window's module-data slot has
been cleared (for example by a prior player_vanished), the g_assert on the old
widget fires (modelled as none) instead of no-opping. -/
theorem C10_focus_change_assert (cfg : Config) (cur : Option Player)
    (g : GtkLock) (data : ModuleData) (win o : WindowId)
    (hne : o ≠ win) (hnone : data o = none) :
    on_focus_change cfg cur g data win (some o) = none := by
  cases hwin : data win <;>
    simp [on_focus_change, hwin, setup_playerctl, mapUpdate, hne, hnone]

/-- C10 witness: a concrete focus change away from window 1, whose slot is
empty, triggers the assertion failure. -/
theorem C10_focus_change_assert_witness :
    on_focus_change cfg64 none { focused_window := some 0, hidden := false }
      (dataW0At 0) 0 (some 1) = none :=
  C10_focus_change_assert cfg64 none { focused_window := some 0, hidden := false }
    (dataW0At 0) 0 1 (by decide) rfl

end Gtklock
